import Mathlib

/-
Verification of the shirt-texture generation pipeline (src/app.py).

The development shallowly embeds the image-compositing core of the
program: images are rectangular RGBA pixel buffers, the PIL primitives
the code calls (Image.new, paste with and without mask, alpha_composite,
ImageStat mean) are modelled by their integer pixel semantics, and the
pipeline functions keep the source's names.  PIL's resize with the
LANCZOS filter performs floating-point resampling; it is modelled as an
explicit resampling-function parameter constrained by its documented
guarantee that the output has exactly the requested dimensions.
-/

/-- One RGBA pixel; each channel is an 8-bit value held as a `Nat`. -/
structure RGBA where
  r : Nat
  g : Nat
  b : Nat
  a : Nat
deriving DecidableEq

/-- A rectangular pixel buffer.  `pix x y` is only meaningful for
`x < width` and `y < height`; all operations and comparisons only ever
inspect in-bounds coordinates. -/
structure Image where
  width : Nat
  height : Nat
  pix : Nat → Nat → RGBA

/-- All four channels are in the 8-bit range. -/
def RGBA.valid (p : RGBA) : Prop :=
  p.r ≤ 255 ∧ p.g ≤ 255 ∧ p.b ≤ 255 ∧ p.a ≤ 255

instance (p : RGBA) : Decidable p.valid := by
  unfold RGBA.valid
  infer_instance

/-- Every in-bounds pixel has 8-bit channels. -/
def Image.valid (img : Image) : Prop :=
  ∀ x < img.width, ∀ y < img.height, (img.pix x y).valid

instance (img : Image) : Decidable img.valid := by
  unfold Image.valid
  infer_instance

/-- Pixel-identical on the first image's extent (with equal dimensions):
the observable equality of two pixel buffers. -/
def Image.eqOn (i j : Image) : Prop :=
  i.width = j.width ∧ i.height = j.height ∧
    ∀ x < i.width, ∀ y < i.height, i.pix x y = j.pix x y

instance (i j : Image) : Decidable (i.eqOn j) := by
  unfold Image.eqOn
  infer_instance

/-- Models PIL `Image.new("RGBA", (w, h), c)`: a constant-color buffer. -/
def Image.new (w h : Nat) (c : RGBA) : Image :=
  ⟨w, h, fun _ _ => c⟩

-- Configuration constants of src/app.py.

def ROBLOX_WIDTH : Nat := 585

def ROBLOX_HEIGHT : Nat := 559

def LOGO_X : Nat := 231

def LOGO_Y : Nat := 74

def LOGO_SIZE : Nat := 128

def PATTERN_SIZE : Nat := 150

/-- Pillow's `SHIFTFORDIV255` macro: division by 255 with rounding,
computed as two shifts, `((n >> 8) + n) >> 8`. -/
def shiftForDiv255 (n : Nat) : Nat :=
  (n / 256 + n) / 256

/-- Pillow's `MULDIV255` macro: `SHIFTFORDIV255(a * b + 128)`, the
rounded product-divide by 255 used by `paste` blending. -/
def mulDiv255 (a b : Nat) : Nat :=
  shiftForDiv255 (a * b + 128)

/-- Pillow's `BLEND` macro from Paste.c: blend one 8-bit channel of the
destination and source under mask value `m`. -/
def blendChan (m din sin : Nat) : Nat :=
  mulDiv255 din (255 - m) + mulDiv255 sin m

/-- Models PIL `base.paste(src, (px, py))` without a mask: pixels inside
the pasted box are overwritten by the source, everything else is kept;
the box is clipped by the buffer's own bounds since the result keeps the
base dimensions. -/
def pasteNoMask (base src : Image) (px py : Nat) : Image :=
  ⟨base.width, base.height, fun x y =>
    if px ≤ x ∧ x < px + src.width ∧ py ≤ y ∧ y < py + src.height then
      src.pix (x - px) (y - py)
    else
      base.pix x y⟩

/-- Models PIL `base.paste(src, (px, py), mask=src)` with an RGBA mask:
inside the pasted box each of the four channels of the destination is
blended with the source under the source's own alpha band, per Pillow's
`paste_mask_RGBA` blending. -/
def pasteMask (base src : Image) (px py : Nat) : Image :=
  ⟨base.width, base.height, fun x y =>
    if px ≤ x ∧ x < px + src.width ∧ py ≤ y ∧ y < py + src.height then
      let s := src.pix (x - px) (y - py)
      let d := base.pix x y
      ⟨blendChan s.a d.r s.r, blendChan s.a d.g s.g,
       blendChan s.a d.b s.b, blendChan s.a d.a s.a⟩
    else
      base.pix x y⟩

/-- Models one pixel of PIL `Image.alpha_composite` (AlphaComposite.c,
PRECISION_BITS = 7): source-over compositing of straight-alpha RGBA,
with Pillow's exact integer arithmetic, including the shortcut that a
fully transparent source pixel copies the destination verbatim. -/
def compositePixel (dst src : RGBA) : RGBA :=
  if src.a = 0 then dst
  else
    let blend := dst.a * (255 - src.a)
    let outa255 := src.a * 255 + blend
    let coef1 := src.a * 255 * 255 * 128 / outa255
    let coef2 := 255 * 128 - coef1
    ⟨shiftForDiv255 (src.r * coef1 + dst.r * coef2 + 128 * 128) / 128,
     shiftForDiv255 (src.g * coef1 + dst.g * coef2 + 128 * 128) / 128,
     shiftForDiv255 (src.b * coef1 + dst.b * coef2 + 128 * 128) / 128,
     shiftForDiv255 (outa255 + 128)⟩

/-- Models PIL `Image.alpha_composite(dst, src)` pointwise. -/
def alphaComposite (dst src : Image) : Image :=
  ⟨dst.width, dst.height, fun x y => compositePixel (dst.pix x y) (src.pix x y)⟩

/-- A resampling function: given target width, target height and a source
image, produce the resized image.  Stands for `img.resize((w, h),
Image.Resampling.LANCZOS)`, whose pixel values are floating-point
resampling and are therefore kept parametric. -/
def ResizeFun : Type :=
  Nat → Nat → Image → Image

/-- The documented guarantee of PIL `resize`: the result has exactly the
requested dimensions. -/
def ResizeDims (rs : ResizeFun) : Prop :=
  ∀ w h img, (rs w h img).width = w ∧ (rs w h img).height = h

/-- A concrete dimension-correct resampler (nearest neighbour), used to
instantiate the parametric theorems on concrete inputs. -/
def rsNearest : ResizeFun :=
  fun w h img => ⟨w, h, fun x y => img.pix (x * img.width / w) (y * img.height / h)⟩

/-- Sum of one channel over all in-bounds pixels. -/
def channelSum (img : Image) (f : RGBA → Nat) : Nat :=
  Finset.sum (Finset.range img.width) fun x =>
    Finset.sum (Finset.range img.height) fun y => f (img.pix x y)

/-- Embeds `get_average_color` (src/app.py:72-79): drop alpha
(`convert("RGB")`), take `ImageStat.Stat(...).mean` — the per-band sum
divided by the pixel count — and truncate each mean with `int(...)`.
Truncating division of the integer channel sum by the pixel count is
exactly that per-channel truncated arithmetic mean. -/
def get_average_color (image : Image) : Nat × Nat × Nat :=
  let n := image.width * image.height
  (channelSum image (fun p => p.r) / n,
   channelSum image (fun p => p.g) / n,
   channelSum image (fun p => p.b) / n)

/-- The background fill pixel of logo mode: the average color of the
resized logo at full opacity, `(*avg_color, 255)`. -/
def bgPixel (rs : ResizeFun) (ai_image : Image) : RGBA :=
  ⟨(get_average_color (rs LOGO_SIZE LOGO_SIZE ai_image)).1,
   (get_average_color (rs LOGO_SIZE LOGO_SIZE ai_image)).2.1,
   (get_average_color (rs LOGO_SIZE LOGO_SIZE ai_image)).2.2, 255⟩

/-- Embeds `create_logo_mode_image` (src/app.py:81-95): resize to
LOGO_SIZE, compute the average color, fill a ROBLOX_WIDTH×ROBLOX_HEIGHT
canvas with it at alpha 255, and paste the logo at (LOGO_X, LOGO_Y) with
the logo itself as mask. -/
def create_logo_mode_image (rs : ResizeFun) (ai_image : Image) : Image :=
  let logo := rs LOGO_SIZE LOGO_SIZE ai_image
  let base := Image.new ROBLOX_WIDTH ROBLOX_HEIGHT (bgPixel rs ai_image)
  pasteMask base logo LOGO_X LOGO_Y

/-- Python `range(0, stop, step)` for positive `step`: the multiples of
`step` below `stop`. -/
def pyRange (stop step : Nat) : List Nat :=
  (List.range ((stop + step - 1) / step)).map (fun i => i * step)

/-- Embeds `create_pattern_mode_image` (src/app.py:97-110): resize to a
PATTERN_SIZE tile, start from a fully transparent canvas
(`Image.new("RGBA", (w, h))` defaults to (0,0,0,0)), and paste the tile
(no mask: opaque overwrite) at every grid point of
`range(0, 585, 150) × range(0, 559, 150)`. -/
def create_pattern_mode_image (rs : ResizeFun) (ai_image : Image) : Image :=
  let tile := rs PATTERN_SIZE PATTERN_SIZE ai_image
  let base := Image.new ROBLOX_WIDTH ROBLOX_HEIGHT ⟨0, 0, 0, 0⟩
  (pyRange ROBLOX_WIDTH PATTERN_SIZE).foldl
    (fun acc x =>
      (pyRange ROBLOX_HEIGHT PATTERN_SIZE).foldl
        (fun acc2 y => pasteNoMask acc2 tile x y) acc)
    base

/-- The overlay actually composited by `apply_template_overlay`: the
loaded overlay itself when its size is already (ROBLOX_WIDTH,
ROBLOX_HEIGHT), otherwise its LANCZOS resize to that size. -/
def effOverlay (rs : ResizeFun) (overlay : Image) : Image :=
  if overlay.width = ROBLOX_WIDTH ∧ overlay.height = ROBLOX_HEIGHT then overlay
  else rs ROBLOX_WIDTH ROBLOX_HEIGHT overlay

/-- Embeds `apply_template_overlay` (src/app.py:112-127).  The
`Option Image` argument is the outcome of the guarded `try` block's
loading step (`Image.open(...).convert("RGBA")`): `none` models any
exception raised while loading/processing the overlay, caught by the
`except` clause, which warns and returns the base unchanged.  The `Bool`
of the result records whether the warning was emitted. -/
def apply_template_overlay (rs : ResizeFun) (base_image : Image)
    (load : Option Image) : Image × Bool :=
  match load with
  | some overlay => (alphaComposite base_image (effOverlay rs overlay), false)
  | none => (base_image, true)

/-- Content of the template cache file: either the raw bytes fetched from
the remote URL, written verbatim, or the transparent placeholder image
written on fetch failure. -/
inductive CacheFile where
  | bytes : List Nat → CacheFile
  | placeholder : CacheFile
deriving DecidableEq

/-- Embeds `download_template` (src/app.py:24-39) over an explicit
filesystem state: the first component is what the cache path holds
(`none` = no file, as tested by `os.path.exists`), `fetch` is the
outcome of `requests.get` (`none` models any exception / bad status).
Returns the new state of the cache path and the number of network
fetches performed. -/
def download_template (file : Option CacheFile) (fetch : Option (List Nat)) :
    Option CacheFile × Nat :=
  match file with
  | some f => (some f, 0)
  | none =>
    match fetch with
    | some content => (some (CacheFile.bytes content), 1)
    | none => (some CacheFile.placeholder, 1)

/-- The transparent placeholder written on fetch failure:
`Image.new("RGBA", (ROBLOX_WIDTH, ROBLOX_HEIGHT), (0, 0, 0, 0))`. -/
def placeholderImage : Image :=
  Image.new ROBLOX_WIDTH ROBLOX_HEIGHT ⟨0, 0, 0, 0⟩

/-- The two values of the mode selector. -/
inductive Mode where
  | logo : Mode
  | pattern : Mode
deriving DecidableEq

/-- Outcome of one pipeline run: the empty-prompt rejection, the
generation failure (generate_image returned None), or a final canvas. -/
inductive MainOutcome where
  | emptyPrompt : MainOutcome
  | generationError : MainOutcome
  | success : Image → MainOutcome

/-- Observable trace of one run of the generation logic of `main`:
its outcome, and whether the generator collaborator, the overlay step
and the overlay warning occurred. -/
structure PipelineTrace where
  outcome : MainOutcome
  generatorCalled : Bool
  overlayAttempted : Bool
  overlayWarned : Bool

/-- The mode dispatch of `main` (src/app.py:168-171). -/
def composeBase (rs : ResizeFun) (mode : Mode) (ai_image : Image) : Image :=
  match mode with
  | Mode.logo => create_logo_mode_image rs ai_image
  | Mode.pattern => create_pattern_mode_image rs ai_image

/-- Embeds the generation logic of `main` (src/app.py:157-178).
`if not prompt:` on a Python `str` is true exactly when the string is
empty, so the guard is `prompt = ""`.  `genResult` is the value returned
by `generate_image` (`none` when its `except` clause caught a failure
and returned `None`); `templateLoad` feeds the overlay step. -/
def runPipeline (rs : ResizeFun) (prompt : String) (mode : Mode)
    (genResult : Option Image) (templateLoad : Option Image) : PipelineTrace :=
  if prompt = "" then
    ⟨MainOutcome.emptyPrompt, false, false, false⟩
  else
    match genResult with
    | none => ⟨MainOutcome.generationError, true, false, false⟩
    | some ai_image =>
      let base_image := composeBase rs mode ai_image
      let result := apply_template_overlay rs base_image templateLoad
      ⟨MainOutcome.success result.1, true, true, result.2⟩

-- Concrete instances used to exercise the theorems.

def whitePix : RGBA := ⟨255, 255, 255, 255⟩

def blackPix : RGBA := ⟨0, 0, 0, 255⟩

/-- Number of in-bounds pixels equal to `whitePix`. -/
def countWhite (img : Image) : Nat :=
  Finset.sum (Finset.range img.width) fun x =>
    Finset.sum (Finset.range img.height) fun y =>
      if img.pix x y = whitePix then 1 else 0

def unitImage : Image := ⟨1, 1, fun _ _ => ⟨10, 20, 30, 255⟩⟩

def bwImage : Image := ⟨1, 2, fun _ y => if y = 0 then whitePix else blackPix⟩

def baseSmall : Image := ⟨2, 2, fun _ _ => ⟨100, 150, 200, 255⟩⟩

def clearOverlay : Image := ⟨ROBLOX_WIDTH, ROBLOX_HEIGHT, fun _ _ => ⟨7, 8, 9, 0⟩⟩

def opaqueOverlay : Image :=
  ⟨ROBLOX_WIDTH, ROBLOX_HEIGHT, fun x y => ⟨x % 256, y % 256, 0, 255⟩⟩

-- Arithmetic facts about Pillow's fixed-point blending primitives.

theorem mulDiv255_zero (c : Nat) : mulDiv255 c 0 = 0 := by
  unfold mulDiv255 shiftForDiv255
  omega

theorem mulDiv255_full (c : Nat) (hc : c ≤ 255) : mulDiv255 c 255 = c := by
  unfold mulDiv255 shiftForDiv255
  omega

theorem blendChan_zero (d s : Nat) (hd : d ≤ 255) : blendChan 0 d s = d := by
  unfold blendChan mulDiv255 shiftForDiv255
  omega

theorem blendChan_full (d s : Nat) (hs : s ≤ 255) : blendChan 255 d s = s := by
  unfold blendChan mulDiv255 shiftForDiv255
  omega

theorem compositePixel_transparent (d s : RGBA) (h : s.a = 0) :
    compositePixel d s = d := by
  simp [compositePixel, h]

theorem compositePixel_opaque (d s : RGBA) (ha : s.a = 255)
    (hr : s.r ≤ 255) (hg : s.g ≤ 255) (hb : s.b ≤ 255) :
    compositePixel d s = s := by
  obtain ⟨r, g, b, a⟩ := s
  simp only at ha hr hg hb
  subst ha
  simp only [compositePixel]
  rw [if_neg (by omega), Nat.sub_self, Nat.mul_zero, Nat.add_zero]
  have hch : ∀ c dc : Nat, c ≤ 255 →
      shiftForDiv255 (c * (255 * 255 * 255 * 128 / (255 * 255)) +
        dc * (255 * 128 - 255 * 255 * 255 * 128 / (255 * 255)) + 128 * 128) / 128 = c := by
    intro c dc hc
    unfold shiftForDiv255
    omega
  have hA : shiftForDiv255 (255 * 255 + 128) = 255 := by
    unfold shiftForDiv255
    omega
  rw [hch r d.r hr, hch g d.g hg, hch b d.b hb, hA]

-- Facts about the average-color computation.

theorem channelSum_const (img : Image) (f : RGBA → Nat) (c : Nat)
    (h : ∀ x < img.width, ∀ y < img.height, f (img.pix x y) = c) :
    channelSum img f = img.width * img.height * c := by
  unfold channelSum
  have hrow : ∀ x ∈ Finset.range img.width,
      (Finset.sum (Finset.range img.height) fun y => f (img.pix x y)) = img.height * c := by
    intro x hx
    rw [Finset.sum_congr rfl fun y hy =>
      h x (Finset.mem_range.mp hx) y (Finset.mem_range.mp hy)]
    simp [Finset.sum_const, Finset.card_range, Nat.smul_one_eq_cast]
  rw [Finset.sum_congr rfl hrow]
  simp [Finset.sum_const, Finset.card_range, Nat.mul_assoc]

theorem channelSum_le (img : Image) (f : RGBA → Nat)
    (h : ∀ x < img.width, ∀ y < img.height, f (img.pix x y) ≤ 255) :
    channelSum img f ≤ img.width * img.height * 255 := by
  unfold channelSum
  calc Finset.sum (Finset.range img.width)
        (fun x => Finset.sum (Finset.range img.height) fun y => f (img.pix x y))
      ≤ Finset.sum (Finset.range img.width) (fun _ => img.height * 255) := by
        apply Finset.sum_le_sum
        intro x hx
        calc Finset.sum (Finset.range img.height) (fun y => f (img.pix x y))
            ≤ Finset.sum (Finset.range img.height) (fun _ => 255) := by
              apply Finset.sum_le_sum
              intro y hy
              exact h x (Finset.mem_range.mp hx) y (Finset.mem_range.mp hy)
          _ = img.height * 255 := by
              simp [Finset.sum_const, Finset.card_range, Nat.smul_one_eq_cast]
    _ = img.width * img.height * 255 := by
        simp [Finset.sum_const, Finset.card_range, Nat.mul_assoc]

theorem avg_component_le (img : Image) (f : RGBA → Nat)
    (hn : 0 < img.width * img.height)
    (h : ∀ x < img.width, ∀ y < img.height, f (img.pix x y) ≤ 255) :
    channelSum img f / (img.width * img.height) ≤ 255 := by
  calc channelSum img f / (img.width * img.height)
      ≤ img.width * img.height * 255 / (img.width * img.height) :=
        Nat.div_le_div_right (channelSum_le img f h)
    _ = 255 := Nat.mul_div_cancel_left 255 hn

theorem avg_component_uniform (img : Image) (f : RGBA → Nat) (c : Nat)
    (hn : 0 < img.width * img.height)
    (h : ∀ x < img.width, ∀ y < img.height, f (img.pix x y) = c) :
    channelSum img f / (img.width * img.height) = c := by
  rw [channelSum_const img f c h]
  exact Nat.mul_div_cancel_left c hn


-- Pointwise behaviour of paste without a mask.

theorem pasteNoMask_pix_of_in (base src : Image) (px py x y sw sh : Nat)
    (hw : src.width = sw) (hh : src.height = sh)
    (h : px ≤ x ∧ x < px + sw ∧ py ≤ y ∧ y < py + sh) :
    (pasteNoMask base src px py).pix x y = src.pix (x - px) (y - py) := by
  subst hw hh
  show (if px ≤ x ∧ x < px + src.width ∧ py ≤ y ∧ y < py + src.height then
      src.pix (x - px) (y - py) else base.pix x y) = src.pix (x - px) (y - py)
  rw [if_pos h]

theorem pasteNoMask_pix_of_out (base src : Image) (px py x y sw sh : Nat)
    (hw : src.width = sw) (hh : src.height = sh)
    (h : ¬(px ≤ x ∧ x < px + sw ∧ py ≤ y ∧ y < py + sh)) :
    (pasteNoMask base src px py).pix x y = base.pix x y := by
  subst hw hh
  show (if px ≤ x ∧ x < px + src.width ∧ py ≤ y ∧ y < py + src.height then
      src.pix (x - px) (y - py) else base.pix x y) = base.pix x y
  rw [if_neg h]

-- The tiling loop of pattern mode, written out grid point by grid point.

theorem create_pattern_unfold (rs : ResizeFun) (ai : Image) :
    create_pattern_mode_image rs ai =
      pasteNoMask (pasteNoMask (pasteNoMask (pasteNoMask (pasteNoMask (pasteNoMask (pasteNoMask (pasteNoMask (pasteNoMask (pasteNoMask (pasteNoMask (pasteNoMask (pasteNoMask (pasteNoMask (pasteNoMask (pasteNoMask (Image.new ROBLOX_WIDTH ROBLOX_HEIGHT (RGBA.mk 0 0 0 0)) (rs 150 150 ai) 0 0) (rs 150 150 ai) 0 150) (rs 150 150 ai) 0 300) (rs 150 150 ai) 0 450) (rs 150 150 ai) 150 0) (rs 150 150 ai) 150 150) (rs 150 150 ai) 150 300) (rs 150 150 ai) 150 450) (rs 150 150 ai) 300 0) (rs 150 150 ai) 300 150) (rs 150 150 ai) 300 300) (rs 150 150 ai) 300 450) (rs 150 150 ai) 450 0) (rs 150 150 ai) 450 150) (rs 150 150 ai) 450 300) (rs 150 150 ai) 450 450 := by
  rfl

/-- Closed form of the tiled canvas: every in-bounds pixel shows the
resized tile, indexed by the coordinates modulo the tile size. -/
theorem create_pattern_pix (rs : ResizeFun) (hrs : ResizeDims rs) (ai : Image) :
    ∀ x < ROBLOX_WIDTH, ∀ y < ROBLOX_HEIGHT,
      (create_pattern_mode_image rs ai).pix x y =
        (rs PATTERN_SIZE PATTERN_SIZE ai).pix (x % PATTERN_SIZE) (y % PATTERN_SIZE) := by
  obtain ⟨tw, th⟩ := hrs PATTERN_SIZE PATTERN_SIZE ai
  intro x hx y hy
  have tw2 : (rs 150 150 ai).width = 150 := tw
  have th2 : (rs 150 150 ai).height = 150 := th
  have hx5 : x < 585 := hx
  have hy5 : y < 559 := hy
  show (create_pattern_mode_image rs ai).pix x y = (rs 150 150 ai).pix (x % 150) (y % 150)
  rw [create_pattern_unfold]
  have hcx : x < 150 ∨ (150 ≤ x ∧ x < 300) ∨ (300 ≤ x ∧ x < 450) ∨ 450 ≤ x := by omega
  have hcy : y < 150 ∨ (150 ≤ y ∧ y < 300) ∨ (300 ≤ y ∧ y < 450) ∨ 450 ≤ y := by omega
  rcases hcx with hcx | hcx | hcx | hcx <;> rcases hcy with hcy | hcy | hcy | hcy
  ·
    rw [pasteNoMask_pix_of_out _ _ 450 450 x y 150 150 tw2 th2 (by omega)]
    rw [pasteNoMask_pix_of_out _ _ 450 300 x y 150 150 tw2 th2 (by omega)]
    rw [pasteNoMask_pix_of_out _ _ 450 150 x y 150 150 tw2 th2 (by omega)]
    rw [pasteNoMask_pix_of_out _ _ 450 0 x y 150 150 tw2 th2 (by omega)]
    rw [pasteNoMask_pix_of_out _ _ 300 450 x y 150 150 tw2 th2 (by omega)]
    rw [pasteNoMask_pix_of_out _ _ 300 300 x y 150 150 tw2 th2 (by omega)]
    rw [pasteNoMask_pix_of_out _ _ 300 150 x y 150 150 tw2 th2 (by omega)]
    rw [pasteNoMask_pix_of_out _ _ 300 0 x y 150 150 tw2 th2 (by omega)]
    rw [pasteNoMask_pix_of_out _ _ 150 450 x y 150 150 tw2 th2 (by omega)]
    rw [pasteNoMask_pix_of_out _ _ 150 300 x y 150 150 tw2 th2 (by omega)]
    rw [pasteNoMask_pix_of_out _ _ 150 150 x y 150 150 tw2 th2 (by omega)]
    rw [pasteNoMask_pix_of_out _ _ 150 0 x y 150 150 tw2 th2 (by omega)]
    rw [pasteNoMask_pix_of_out _ _ 0 450 x y 150 150 tw2 th2 (by omega)]
    rw [pasteNoMask_pix_of_out _ _ 0 300 x y 150 150 tw2 th2 (by omega)]
    rw [pasteNoMask_pix_of_out _ _ 0 150 x y 150 150 tw2 th2 (by omega)]
    rw [pasteNoMask_pix_of_in _ _ 0 0 x y 150 150 tw2 th2 (by omega)]
    have ex : x - 0 = x % 150 := by omega
    have ey : y - 0 = y % 150 := by omega
    rw [ex, ey]
  ·
    rw [pasteNoMask_pix_of_out _ _ 450 450 x y 150 150 tw2 th2 (by omega)]
    rw [pasteNoMask_pix_of_out _ _ 450 300 x y 150 150 tw2 th2 (by omega)]
    rw [pasteNoMask_pix_of_out _ _ 450 150 x y 150 150 tw2 th2 (by omega)]
    rw [pasteNoMask_pix_of_out _ _ 450 0 x y 150 150 tw2 th2 (by omega)]
    rw [pasteNoMask_pix_of_out _ _ 300 450 x y 150 150 tw2 th2 (by omega)]
    rw [pasteNoMask_pix_of_out _ _ 300 300 x y 150 150 tw2 th2 (by omega)]
    rw [pasteNoMask_pix_of_out _ _ 300 150 x y 150 150 tw2 th2 (by omega)]
    rw [pasteNoMask_pix_of_out _ _ 300 0 x y 150 150 tw2 th2 (by omega)]
    rw [pasteNoMask_pix_of_out _ _ 150 450 x y 150 150 tw2 th2 (by omega)]
    rw [pasteNoMask_pix_of_out _ _ 150 300 x y 150 150 tw2 th2 (by omega)]
    rw [pasteNoMask_pix_of_out _ _ 150 150 x y 150 150 tw2 th2 (by omega)]
    rw [pasteNoMask_pix_of_out _ _ 150 0 x y 150 150 tw2 th2 (by omega)]
    rw [pasteNoMask_pix_of_out _ _ 0 450 x y 150 150 tw2 th2 (by omega)]
    rw [pasteNoMask_pix_of_out _ _ 0 300 x y 150 150 tw2 th2 (by omega)]
    rw [pasteNoMask_pix_of_in _ _ 0 150 x y 150 150 tw2 th2 (by omega)]
    have ex : x - 0 = x % 150 := by omega
    have ey : y - 150 = y % 150 := by omega
    rw [ex, ey]
  ·
    rw [pasteNoMask_pix_of_out _ _ 450 450 x y 150 150 tw2 th2 (by omega)]
    rw [pasteNoMask_pix_of_out _ _ 450 300 x y 150 150 tw2 th2 (by omega)]
    rw [pasteNoMask_pix_of_out _ _ 450 150 x y 150 150 tw2 th2 (by omega)]
    rw [pasteNoMask_pix_of_out _ _ 450 0 x y 150 150 tw2 th2 (by omega)]
    rw [pasteNoMask_pix_of_out _ _ 300 450 x y 150 150 tw2 th2 (by omega)]
    rw [pasteNoMask_pix_of_out _ _ 300 300 x y 150 150 tw2 th2 (by omega)]
    rw [pasteNoMask_pix_of_out _ _ 300 150 x y 150 150 tw2 th2 (by omega)]
    rw [pasteNoMask_pix_of_out _ _ 300 0 x y 150 150 tw2 th2 (by omega)]
    rw [pasteNoMask_pix_of_out _ _ 150 450 x y 150 150 tw2 th2 (by omega)]
    rw [pasteNoMask_pix_of_out _ _ 150 300 x y 150 150 tw2 th2 (by omega)]
    rw [pasteNoMask_pix_of_out _ _ 150 150 x y 150 150 tw2 th2 (by omega)]
    rw [pasteNoMask_pix_of_out _ _ 150 0 x y 150 150 tw2 th2 (by omega)]
    rw [pasteNoMask_pix_of_out _ _ 0 450 x y 150 150 tw2 th2 (by omega)]
    rw [pasteNoMask_pix_of_in _ _ 0 300 x y 150 150 tw2 th2 (by omega)]
    have ex : x - 0 = x % 150 := by omega
    have ey : y - 300 = y % 150 := by omega
    rw [ex, ey]
  ·
    rw [pasteNoMask_pix_of_out _ _ 450 450 x y 150 150 tw2 th2 (by omega)]
    rw [pasteNoMask_pix_of_out _ _ 450 300 x y 150 150 tw2 th2 (by omega)]
    rw [pasteNoMask_pix_of_out _ _ 450 150 x y 150 150 tw2 th2 (by omega)]
    rw [pasteNoMask_pix_of_out _ _ 450 0 x y 150 150 tw2 th2 (by omega)]
    rw [pasteNoMask_pix_of_out _ _ 300 450 x y 150 150 tw2 th2 (by omega)]
    rw [pasteNoMask_pix_of_out _ _ 300 300 x y 150 150 tw2 th2 (by omega)]
    rw [pasteNoMask_pix_of_out _ _ 300 150 x y 150 150 tw2 th2 (by omega)]
    rw [pasteNoMask_pix_of_out _ _ 300 0 x y 150 150 tw2 th2 (by omega)]
    rw [pasteNoMask_pix_of_out _ _ 150 450 x y 150 150 tw2 th2 (by omega)]
    rw [pasteNoMask_pix_of_out _ _ 150 300 x y 150 150 tw2 th2 (by omega)]
    rw [pasteNoMask_pix_of_out _ _ 150 150 x y 150 150 tw2 th2 (by omega)]
    rw [pasteNoMask_pix_of_out _ _ 150 0 x y 150 150 tw2 th2 (by omega)]
    rw [pasteNoMask_pix_of_in _ _ 0 450 x y 150 150 tw2 th2 (by omega)]
    have ex : x - 0 = x % 150 := by omega
    have ey : y - 450 = y % 150 := by omega
    rw [ex, ey]
  ·
    rw [pasteNoMask_pix_of_out _ _ 450 450 x y 150 150 tw2 th2 (by omega)]
    rw [pasteNoMask_pix_of_out _ _ 450 300 x y 150 150 tw2 th2 (by omega)]
    rw [pasteNoMask_pix_of_out _ _ 450 150 x y 150 150 tw2 th2 (by omega)]
    rw [pasteNoMask_pix_of_out _ _ 450 0 x y 150 150 tw2 th2 (by omega)]
    rw [pasteNoMask_pix_of_out _ _ 300 450 x y 150 150 tw2 th2 (by omega)]
    rw [pasteNoMask_pix_of_out _ _ 300 300 x y 150 150 tw2 th2 (by omega)]
    rw [pasteNoMask_pix_of_out _ _ 300 150 x y 150 150 tw2 th2 (by omega)]
    rw [pasteNoMask_pix_of_out _ _ 300 0 x y 150 150 tw2 th2 (by omega)]
    rw [pasteNoMask_pix_of_out _ _ 150 450 x y 150 150 tw2 th2 (by omega)]
    rw [pasteNoMask_pix_of_out _ _ 150 300 x y 150 150 tw2 th2 (by omega)]
    rw [pasteNoMask_pix_of_out _ _ 150 150 x y 150 150 tw2 th2 (by omega)]
    rw [pasteNoMask_pix_of_in _ _ 150 0 x y 150 150 tw2 th2 (by omega)]
    have ex : x - 150 = x % 150 := by omega
    have ey : y - 0 = y % 150 := by omega
    rw [ex, ey]
  ·
    rw [pasteNoMask_pix_of_out _ _ 450 450 x y 150 150 tw2 th2 (by omega)]
    rw [pasteNoMask_pix_of_out _ _ 450 300 x y 150 150 tw2 th2 (by omega)]
    rw [pasteNoMask_pix_of_out _ _ 450 150 x y 150 150 tw2 th2 (by omega)]
    rw [pasteNoMask_pix_of_out _ _ 450 0 x y 150 150 tw2 th2 (by omega)]
    rw [pasteNoMask_pix_of_out _ _ 300 450 x y 150 150 tw2 th2 (by omega)]
    rw [pasteNoMask_pix_of_out _ _ 300 300 x y 150 150 tw2 th2 (by omega)]
    rw [pasteNoMask_pix_of_out _ _ 300 150 x y 150 150 tw2 th2 (by omega)]
    rw [pasteNoMask_pix_of_out _ _ 300 0 x y 150 150 tw2 th2 (by omega)]
    rw [pasteNoMask_pix_of_out _ _ 150 450 x y 150 150 tw2 th2 (by omega)]
    rw [pasteNoMask_pix_of_out _ _ 150 300 x y 150 150 tw2 th2 (by omega)]
    rw [pasteNoMask_pix_of_in _ _ 150 150 x y 150 150 tw2 th2 (by omega)]
    have ex : x - 150 = x % 150 := by omega
    have ey : y - 150 = y % 150 := by omega
    rw [ex, ey]
  ·
    rw [pasteNoMask_pix_of_out _ _ 450 450 x y 150 150 tw2 th2 (by omega)]
    rw [pasteNoMask_pix_of_out _ _ 450 300 x y 150 150 tw2 th2 (by omega)]
    rw [pasteNoMask_pix_of_out _ _ 450 150 x y 150 150 tw2 th2 (by omega)]
    rw [pasteNoMask_pix_of_out _ _ 450 0 x y 150 150 tw2 th2 (by omega)]
    rw [pasteNoMask_pix_of_out _ _ 300 450 x y 150 150 tw2 th2 (by omega)]
    rw [pasteNoMask_pix_of_out _ _ 300 300 x y 150 150 tw2 th2 (by omega)]
    rw [pasteNoMask_pix_of_out _ _ 300 150 x y 150 150 tw2 th2 (by omega)]
    rw [pasteNoMask_pix_of_out _ _ 300 0 x y 150 150 tw2 th2 (by omega)]
    rw [pasteNoMask_pix_of_out _ _ 150 450 x y 150 150 tw2 th2 (by omega)]
    rw [pasteNoMask_pix_of_in _ _ 150 300 x y 150 150 tw2 th2 (by omega)]
    have ex : x - 150 = x % 150 := by omega
    have ey : y - 300 = y % 150 := by omega
    rw [ex, ey]
  ·
    rw [pasteNoMask_pix_of_out _ _ 450 450 x y 150 150 tw2 th2 (by omega)]
    rw [pasteNoMask_pix_of_out _ _ 450 300 x y 150 150 tw2 th2 (by omega)]
    rw [pasteNoMask_pix_of_out _ _ 450 150 x y 150 150 tw2 th2 (by omega)]
    rw [pasteNoMask_pix_of_out _ _ 450 0 x y 150 150 tw2 th2 (by omega)]
    rw [pasteNoMask_pix_of_out _ _ 300 450 x y 150 150 tw2 th2 (by omega)]
    rw [pasteNoMask_pix_of_out _ _ 300 300 x y 150 150 tw2 th2 (by omega)]
    rw [pasteNoMask_pix_of_out _ _ 300 150 x y 150 150 tw2 th2 (by omega)]
    rw [pasteNoMask_pix_of_out _ _ 300 0 x y 150 150 tw2 th2 (by omega)]
    rw [pasteNoMask_pix_of_in _ _ 150 450 x y 150 150 tw2 th2 (by omega)]
    have ex : x - 150 = x % 150 := by omega
    have ey : y - 450 = y % 150 := by omega
    rw [ex, ey]
  ·
    rw [pasteNoMask_pix_of_out _ _ 450 450 x y 150 150 tw2 th2 (by omega)]
    rw [pasteNoMask_pix_of_out _ _ 450 300 x y 150 150 tw2 th2 (by omega)]
    rw [pasteNoMask_pix_of_out _ _ 450 150 x y 150 150 tw2 th2 (by omega)]
    rw [pasteNoMask_pix_of_out _ _ 450 0 x y 150 150 tw2 th2 (by omega)]
    rw [pasteNoMask_pix_of_out _ _ 300 450 x y 150 150 tw2 th2 (by omega)]
    rw [pasteNoMask_pix_of_out _ _ 300 300 x y 150 150 tw2 th2 (by omega)]
    rw [pasteNoMask_pix_of_out _ _ 300 150 x y 150 150 tw2 th2 (by omega)]
    rw [pasteNoMask_pix_of_in _ _ 300 0 x y 150 150 tw2 th2 (by omega)]
    have ex : x - 300 = x % 150 := by omega
    have ey : y - 0 = y % 150 := by omega
    rw [ex, ey]
  ·
    rw [pasteNoMask_pix_of_out _ _ 450 450 x y 150 150 tw2 th2 (by omega)]
    rw [pasteNoMask_pix_of_out _ _ 450 300 x y 150 150 tw2 th2 (by omega)]
    rw [pasteNoMask_pix_of_out _ _ 450 150 x y 150 150 tw2 th2 (by omega)]
    rw [pasteNoMask_pix_of_out _ _ 450 0 x y 150 150 tw2 th2 (by omega)]
    rw [pasteNoMask_pix_of_out _ _ 300 450 x y 150 150 tw2 th2 (by omega)]
    rw [pasteNoMask_pix_of_out _ _ 300 300 x y 150 150 tw2 th2 (by omega)]
    rw [pasteNoMask_pix_of_in _ _ 300 150 x y 150 150 tw2 th2 (by omega)]
    have ex : x - 300 = x % 150 := by omega
    have ey : y - 150 = y % 150 := by omega
    rw [ex, ey]
  ·
    rw [pasteNoMask_pix_of_out _ _ 450 450 x y 150 150 tw2 th2 (by omega)]
    rw [pasteNoMask_pix_of_out _ _ 450 300 x y 150 150 tw2 th2 (by omega)]
    rw [pasteNoMask_pix_of_out _ _ 450 150 x y 150 150 tw2 th2 (by omega)]
    rw [pasteNoMask_pix_of_out _ _ 450 0 x y 150 150 tw2 th2 (by omega)]
    rw [pasteNoMask_pix_of_out _ _ 300 450 x y 150 150 tw2 th2 (by omega)]
    rw [pasteNoMask_pix_of_in _ _ 300 300 x y 150 150 tw2 th2 (by omega)]
    have ex : x - 300 = x % 150 := by omega
    have ey : y - 300 = y % 150 := by omega
    rw [ex, ey]
  ·
    rw [pasteNoMask_pix_of_out _ _ 450 450 x y 150 150 tw2 th2 (by omega)]
    rw [pasteNoMask_pix_of_out _ _ 450 300 x y 150 150 tw2 th2 (by omega)]
    rw [pasteNoMask_pix_of_out _ _ 450 150 x y 150 150 tw2 th2 (by omega)]
    rw [pasteNoMask_pix_of_out _ _ 450 0 x y 150 150 tw2 th2 (by omega)]
    rw [pasteNoMask_pix_of_in _ _ 300 450 x y 150 150 tw2 th2 (by omega)]
    have ex : x - 300 = x % 150 := by omega
    have ey : y - 450 = y % 150 := by omega
    rw [ex, ey]
  ·
    rw [pasteNoMask_pix_of_out _ _ 450 450 x y 150 150 tw2 th2 (by omega)]
    rw [pasteNoMask_pix_of_out _ _ 450 300 x y 150 150 tw2 th2 (by omega)]
    rw [pasteNoMask_pix_of_out _ _ 450 150 x y 150 150 tw2 th2 (by omega)]
    rw [pasteNoMask_pix_of_in _ _ 450 0 x y 150 150 tw2 th2 (by omega)]
    have ex : x - 450 = x % 150 := by omega
    have ey : y - 0 = y % 150 := by omega
    rw [ex, ey]
  ·
    rw [pasteNoMask_pix_of_out _ _ 450 450 x y 150 150 tw2 th2 (by omega)]
    rw [pasteNoMask_pix_of_out _ _ 450 300 x y 150 150 tw2 th2 (by omega)]
    rw [pasteNoMask_pix_of_in _ _ 450 150 x y 150 150 tw2 th2 (by omega)]
    have ex : x - 450 = x % 150 := by omega
    have ey : y - 150 = y % 150 := by omega
    rw [ex, ey]
  ·
    rw [pasteNoMask_pix_of_out _ _ 450 450 x y 150 150 tw2 th2 (by omega)]
    rw [pasteNoMask_pix_of_in _ _ 450 300 x y 150 150 tw2 th2 (by omega)]
    have ex : x - 450 = x % 150 := by omega
    have ey : y - 300 = y % 150 := by omega
    rw [ex, ey]
  ·
    rw [pasteNoMask_pix_of_in _ _ 450 450 x y 150 150 tw2 th2 (by omega)]
    have ex : x - 450 = x % 150 := by omega
    have ey : y - 450 = y % 150 := by omega
    rw [ex, ey]

theorem avg_uniform (img : Image) (c : RGBA) (hn : 0 < img.width * img.height)
    (hpix : ∀ x < img.width, ∀ y < img.height, img.pix x y = c) :
    get_average_color img = (c.r, c.g, c.b) := by
  unfold get_average_color
  simp only [Prod.mk.injEq]
  refine ⟨?_, ?_, ?_⟩ <;>
    exact avg_component_uniform img _ _ hn fun x hx y hy => by rw [hpix x hx y hy]

theorem avg_le (img : Image) (hv : img.valid) (hn : 0 < img.width * img.height) :
    (get_average_color img).1 ≤ 255 ∧ (get_average_color img).2.1 ≤ 255 ∧
      (get_average_color img).2.2 ≤ 255 := by
  unfold get_average_color
  refine ⟨?_, ?_, ?_⟩ <;>
    exact avg_component_le img _ hn fun x hx y hy => by
      have h := hv x hx y hy
      unfold RGBA.valid at h
      omega

theorem channelSum_bw (img : Image) (f : RGBA → Nat)
    (hw : f whitePix = 255) (hb : f blackPix = 0)
    (hpix : ∀ x < img.width, ∀ y < img.height,
      img.pix x y = whitePix ∨ img.pix x y = blackPix) :
    channelSum img f = 255 * countWhite img := by
  unfold channelSum countWhite
  rw [Finset.mul_sum]
  apply Finset.sum_congr rfl
  intro x hx
  rw [Finset.mul_sum]
  apply Finset.sum_congr rfl
  intro y hy
  rcases hpix x (Finset.mem_range.mp hx) y (Finset.mem_range.mp hy) with h | h
  · rw [h, hw, if_pos rfl]
    omega
  · rw [h, hb, if_neg (by decide)]
    omega

theorem avg_halfhalf (img : Image) (hn : 0 < img.width * img.height)
    (hpix : ∀ x < img.width, ∀ y < img.height,
      img.pix x y = whitePix ∨ img.pix x y = blackPix)
    (hc : 2 * countWhite img = img.width * img.height) :
    get_average_color img = (127, 127, 127) := by
  have hk : 0 < countWhite img := by omega
  have hdiv : 255 * countWhite img / (img.width * img.height) = 127 := by
    rw [← hc]
    exact Nat.div_eq_of_lt_le (by omega) (by omega)
  unfold get_average_color
  simp only [Prod.mk.injEq]
  refine ⟨?_, ?_, ?_⟩ <;>
    rw [channelSum_bw img _ rfl rfl hpix, hdiv]

-- Pointwise behaviour of paste with the source's alpha as mask.

theorem pasteMask_pix_of_in (base src : Image) (px py x y sw sh : Nat)
    (hw : src.width = sw) (hh : src.height = sh)
    (h : px ≤ x ∧ x < px + sw ∧ py ≤ y ∧ y < py + sh) :
    (pasteMask base src px py).pix x y =
      RGBA.mk
        (blendChan (src.pix (x - px) (y - py)).a (base.pix x y).r (src.pix (x - px) (y - py)).r)
        (blendChan (src.pix (x - px) (y - py)).a (base.pix x y).g (src.pix (x - px) (y - py)).g)
        (blendChan (src.pix (x - px) (y - py)).a (base.pix x y).b (src.pix (x - px) (y - py)).b)
        (blendChan (src.pix (x - px) (y - py)).a (base.pix x y).a (src.pix (x - px) (y - py)).a) := by
  subst hw hh
  simp only [pasteMask]
  rw [if_pos h]

theorem pasteMask_pix_of_out (base src : Image) (px py x y sw sh : Nat)
    (hw : src.width = sw) (hh : src.height = sh)
    (h : ¬(px ≤ x ∧ x < px + sw ∧ py ≤ y ∧ y < py + sh)) :
    (pasteMask base src px py).pix x y = base.pix x y := by
  subst hw hh
  simp only [pasteMask]
  rw [if_neg h]

theorem rgbaEta (p : RGBA) : RGBA.mk p.r p.g p.b p.a = p := rfl

-- Pointwise behaviour of the logo-mode canvas.

theorem create_logo_pix_out (rs : ResizeFun) (hrs : ResizeDims rs) (ai : Image)
    (x y : Nat)
    (h : ¬(LOGO_X ≤ x ∧ x < LOGO_X + LOGO_SIZE ∧ LOGO_Y ≤ y ∧ y < LOGO_Y + LOGO_SIZE)) :
    (create_logo_mode_image rs ai).pix x y = bgPixel rs ai := by
  obtain ⟨lw, lh⟩ := hrs LOGO_SIZE LOGO_SIZE ai
  show (pasteMask (Image.new ROBLOX_WIDTH ROBLOX_HEIGHT (bgPixel rs ai))
      (rs LOGO_SIZE LOGO_SIZE ai) LOGO_X LOGO_Y).pix x y = bgPixel rs ai
  rw [pasteMask_pix_of_out _ _ LOGO_X LOGO_Y x y LOGO_SIZE LOGO_SIZE lw lh h]
  rfl

theorem create_logo_pix_transparent (rs : ResizeFun) (hrs : ResizeDims rs) (ai : Image)
    (x y : Nat) (hv : (rs LOGO_SIZE LOGO_SIZE ai).valid)
    (hin : LOGO_X ≤ x ∧ x < LOGO_X + LOGO_SIZE ∧ LOGO_Y ≤ y ∧ y < LOGO_Y + LOGO_SIZE)
    (ha : ((rs LOGO_SIZE LOGO_SIZE ai).pix (x - LOGO_X) (y - LOGO_Y)).a = 0) :
    (create_logo_mode_image rs ai).pix x y = bgPixel rs ai := by
  obtain ⟨lw, lh⟩ := hrs LOGO_SIZE LOGO_SIZE ai
  have hn : 0 < (rs LOGO_SIZE LOGO_SIZE ai).width * (rs LOGO_SIZE LOGO_SIZE ai).height := by
    rw [lw, lh]
    decide
  have havg := avg_le (rs LOGO_SIZE LOGO_SIZE ai) hv hn
  show (pasteMask (Image.new ROBLOX_WIDTH ROBLOX_HEIGHT (bgPixel rs ai))
      (rs LOGO_SIZE LOGO_SIZE ai) LOGO_X LOGO_Y).pix x y = bgPixel rs ai
  rw [pasteMask_pix_of_in _ _ LOGO_X LOGO_Y x y LOGO_SIZE LOGO_SIZE lw lh hin, ha]
  simp only [Image.new, bgPixel]
  rw [blendChan_zero _ _ havg.1, blendChan_zero _ _ havg.2.1,
    blendChan_zero _ _ havg.2.2, blendChan_zero _ _ (Nat.le_refl 255)]

theorem create_logo_pix_opaque (rs : ResizeFun) (hrs : ResizeDims rs) (ai : Image)
    (x y : Nat) (hv : (rs LOGO_SIZE LOGO_SIZE ai).valid)
    (hin : LOGO_X ≤ x ∧ x < LOGO_X + LOGO_SIZE ∧ LOGO_Y ≤ y ∧ y < LOGO_Y + LOGO_SIZE)
    (ha : ((rs LOGO_SIZE LOGO_SIZE ai).pix (x - LOGO_X) (y - LOGO_Y)).a = 255) :
    (create_logo_mode_image rs ai).pix x y =
      (rs LOGO_SIZE LOGO_SIZE ai).pix (x - LOGO_X) (y - LOGO_Y) := by
  obtain ⟨lw, lh⟩ := hrs LOGO_SIZE LOGO_SIZE ai
  have hin5 : 231 ≤ x ∧ x < 359 ∧ 74 ≤ y ∧ y < 202 := hin
  have hx1 : x - LOGO_X < (rs LOGO_SIZE LOGO_SIZE ai).width := by
    rw [lw]
    show x - 231 < 128
    omega
  have hy1 : y - LOGO_Y < (rs LOGO_SIZE LOGO_SIZE ai).height := by
    rw [lh]
    show y - 74 < 128
    omega
  have hs := hv (x - LOGO_X) hx1 (y - LOGO_Y) hy1
  unfold RGBA.valid at hs
  show (pasteMask (Image.new ROBLOX_WIDTH ROBLOX_HEIGHT (bgPixel rs ai))
      (rs LOGO_SIZE LOGO_SIZE ai) LOGO_X LOGO_Y).pix x y =
    (rs LOGO_SIZE LOGO_SIZE ai).pix (x - LOGO_X) (y - LOGO_Y)
  rw [pasteMask_pix_of_in _ _ LOGO_X LOGO_Y x y LOGO_SIZE LOGO_SIZE lw lh hin, ha]
  rw [blendChan_full _ _ hs.1, blendChan_full _ _ hs.2.1,
    blendChan_full _ _ hs.2.2.1, blendChan_full _ _ (Nat.le_refl 255)]
  rw [← ha]

-- Behaviour of the overlay compositor.

theorem apply_overlay_transparent (rs : ResizeFun) (base ov : Image)
    (h : ∀ x < base.width, ∀ y < base.height, ((effOverlay rs ov).pix x y).a = 0) :
    Image.eqOn (apply_template_overlay rs base (some ov)).1 base := by
  refine ⟨rfl, rfl, ?_⟩
  intro x hx y hy
  show compositePixel (base.pix x y) ((effOverlay rs ov).pix x y) = base.pix x y
  exact compositePixel_transparent _ _ (h x hx y hy)

theorem apply_overlay_opaque (rs : ResizeFun) (base ov : Image)
    (h : ∀ x < base.width, ∀ y < base.height,
      ((effOverlay rs ov).pix x y).a = 255 ∧ ((effOverlay rs ov).pix x y).valid) :
    ∀ x < base.width, ∀ y < base.height,
      ((apply_template_overlay rs base (some ov)).1).pix x y =
        (effOverlay rs ov).pix x y := by
  intro x hx y hy
  obtain ⟨ha, hv⟩ := h x hx y hy
  unfold RGBA.valid at hv
  show compositePixel (base.pix x y) ((effOverlay rs ov).pix x y) =
    (effOverlay rs ov).pix x y
  exact compositePixel_opaque _ _ ha hv.1 hv.2.1 hv.2.2.1

theorem effOverlay_placeholder (rs : ResizeFun) :
    effOverlay rs placeholderImage = placeholderImage := by
  unfold effOverlay
  rw [if_pos ⟨rfl, rfl⟩]

theorem apply_overlay_placeholder (rs : ResizeFun) (base : Image) (x y : Nat) :
    ((apply_template_overlay rs base (some placeholderImage)).1).pix x y =
      base.pix x y := by
  show compositePixel (base.pix x y) ((effOverlay rs placeholderImage).pix x y) =
    base.pix x y
  rw [effOverlay_placeholder]
  exact compositePixel_transparent _ _ rfl

-- Claims.

/-- Claim C1, counterexample: the prompt consisting of a single space is
blank (whitespace-only) and non-empty, yet the pipeline does invoke the
generator collaborator, because `if not prompt:` only rejects the empty
string.  This refutes the claim that every blank prompt halts with
EmptyPromptError before any external call. -/
theorem claim1_blank_prompt_counterexample :
    (" " : String) ≠ "" ∧ (" " : String).data = [' '] ∧ (' ').isWhitespace = true ∧
      (runPipeline rsNearest " " Mode.logo (some unitImage) none).generatorCalled = true ∧
      (runPipeline rsNearest " " Mode.logo (some unitImage) none).outcome ≠
        MainOutcome.emptyPrompt := by
  refine ⟨by decide, by decide, by decide, rfl, ?_⟩
  intro h
  exact MainOutcome.noConfusion h

/-- Claim C1 (amended): for every prompt equal to the empty string and
either mode, the pipeline halts with EmptyPromptError and the generator
collaborator is never invoked.  (A whitespace-only non-empty prompt is
not rejected by the code.) -/
theorem claim1_empty_prompt_rejected (rs : ResizeFun) (prompt : String) (mode : Mode)
    (genResult templateLoad : Option Image) (hp : prompt = "") :
    (runPipeline rs prompt mode genResult templateLoad).outcome =
        MainOutcome.emptyPrompt ∧
      (runPipeline rs prompt mode genResult templateLoad).generatorCalled = false := by
  subst hp
  exact ⟨rfl, rfl⟩

/-- Instance of the amended claim C1 at the empty prompt. -/
theorem claim1_empty_prompt_rejected_inst :
    ("" : String) = "" ∧
      (runPipeline rsNearest "" Mode.pattern (some unitImage) none).outcome =
        MainOutcome.emptyPrompt ∧
      (runPipeline rsNearest "" Mode.pattern (some unitImage) none).generatorCalled =
        false :=
  ⟨rfl, claim1_empty_prompt_rejected rsNearest "" Mode.pattern (some unitImage) none rfl⟩

/-- Claim C2: for every generated asset of positive dimensions (square or
not) and any resampler, both `create_logo_mode_image` and
`create_pattern_mode_image` return a canvas of exactly 585×559 pixels. -/
theorem claim2_canvas_dimensions (rs : ResizeFun) (ai : Image)
    (hw : 0 < ai.width) (hh : 0 < ai.height) :
    (create_logo_mode_image rs ai).width = 585 ∧
      (create_logo_mode_image rs ai).height = 559 ∧
      (create_pattern_mode_image rs ai).width = 585 ∧
      (create_pattern_mode_image rs ai).height = 559 :=
  ⟨rfl, rfl, rfl, rfl⟩

/-- Instance of claim C2 at a concrete 1×1 asset. -/
theorem claim2_canvas_dimensions_inst :
    0 < unitImage.width ∧ 0 < unitImage.height ∧
      ((create_logo_mode_image rsNearest unitImage).width = 585 ∧
        (create_logo_mode_image rsNearest unitImage).height = 559 ∧
        (create_pattern_mode_image rsNearest unitImage).width = 585 ∧
        (create_pattern_mode_image rsNearest unitImage).height = 559) :=
  ⟨by decide, by decide,
   claim2_canvas_dimensions rsNearest unitImage (by decide) (by decide)⟩

/-- Claim C3: the logo-mode canvas is filled uniformly with the average
color of the resized 128×128 logo at full opacity; the resized logo is
composited at offset (231, 74) with its own alpha as blend mask, so a
fully transparent logo pixel keeps the background color and a fully
opaque logo pixel takes the logo's color. -/
theorem claim3_logo_composition (rs : ResizeFun) (hrs : ResizeDims rs) (ai : Image)
    (hv : (rs LOGO_SIZE LOGO_SIZE ai).valid) :
    (bgPixel rs ai).a = 255 ∧
      (∀ x < ROBLOX_WIDTH, ∀ y < ROBLOX_HEIGHT,
        ¬(LOGO_X ≤ x ∧ x < LOGO_X + LOGO_SIZE ∧ LOGO_Y ≤ y ∧ y < LOGO_Y + LOGO_SIZE) →
        (create_logo_mode_image rs ai).pix x y = bgPixel rs ai) ∧
      (∀ x y : Nat,
        (LOGO_X ≤ x ∧ x < LOGO_X + LOGO_SIZE ∧ LOGO_Y ≤ y ∧ y < LOGO_Y + LOGO_SIZE) →
        (((rs LOGO_SIZE LOGO_SIZE ai).pix (x - LOGO_X) (y - LOGO_Y)).a = 0 →
          (create_logo_mode_image rs ai).pix x y = bgPixel rs ai) ∧
        (((rs LOGO_SIZE LOGO_SIZE ai).pix (x - LOGO_X) (y - LOGO_Y)).a = 255 →
          (create_logo_mode_image rs ai).pix x y =
            (rs LOGO_SIZE LOGO_SIZE ai).pix (x - LOGO_X) (y - LOGO_Y))) := by
  refine ⟨rfl, ?_, ?_⟩
  · intro x _ y _ h
    exact create_logo_pix_out rs hrs ai x y h
  · intro x y hin
    exact ⟨create_logo_pix_transparent rs hrs ai x y hv hin,
      create_logo_pix_opaque rs hrs ai x y hv hin⟩

/-- Instance of claim C3: on a 1×1 asset, an off-logo pixel shows the
background fill. -/
theorem claim3_logo_composition_inst :
    ResizeDims rsNearest ∧ (rsNearest LOGO_SIZE LOGO_SIZE unitImage).valid ∧
      (create_logo_mode_image rsNearest unitImage).pix 0 0 =
        bgPixel rsNearest unitImage := by
  have hrs : ResizeDims rsNearest := fun _ _ _ => ⟨rfl, rfl⟩
  have hv : (rsNearest LOGO_SIZE LOGO_SIZE unitImage).valid :=
    fun x _ y _ => show (RGBA.mk 10 20 30 255).valid from by decide
  exact ⟨hrs, hv,
    (claim3_logo_composition rsNearest hrs unitImage hv).2.1 0 (by decide) 0
      (by decide) (by decide)⟩

/-- Claim C4: pattern mode tiles the resized 150×150 tile in a regular
grid from (0,0) stepping by 150, pasted opaque-overwrite, clipped at the
585×559 canvas boundary; every in-bounds pixel shows the tile pixel at
the coordinates modulo 150 — in particular the rightmost column of
tiles keeps only 585−450 = 135 columns and the bottom row only
559−450 = 109 rows, with no partial-tile scaling. -/
theorem claim4_pattern_tiling (rs : ResizeFun) (hrs : ResizeDims rs) (ai : Image) :
    (create_pattern_mode_image rs ai).width = 585 ∧
      (create_pattern_mode_image rs ai).height = 559 ∧
      ∀ x < ROBLOX_WIDTH, ∀ y < ROBLOX_HEIGHT,
        (create_pattern_mode_image rs ai).pix x y =
          (rs PATTERN_SIZE PATTERN_SIZE ai).pix (x % PATTERN_SIZE) (y % PATTERN_SIZE) :=
  ⟨rfl, rfl, create_pattern_pix rs hrs ai⟩

/-- Instance of claim C4 at a pixel inside the clipped bottom-right
region. -/
theorem claim4_pattern_tiling_inst :
    ResizeDims rsNearest ∧
      (create_pattern_mode_image rsNearest unitImage).pix 460 480 =
        (rsNearest PATTERN_SIZE PATTERN_SIZE unitImage).pix (460 % PATTERN_SIZE)
          (480 % PATTERN_SIZE) :=
  ⟨fun _ _ _ => ⟨rfl, rfl⟩,
   (claim4_pattern_tiling rsNearest (fun _ _ _ => ⟨rfl, rfl⟩) unitImage).2.2 460
     (by decide) 480 (by decide)⟩

/-- Claim C5: on a non-empty image, each component of the average color
is the truncated per-channel mean and lies in [0,255]; on a uniform
image of color (R,G,B) the result is exactly (R,G,B); on a 50/50
half-black/half-white image it is (127,127,127). -/
theorem claim5_average_color (img : Image) :
    (0 < img.width * img.height → img.valid →
      (get_average_color img).1 ≤ 255 ∧ (get_average_color img).2.1 ≤ 255 ∧
        (get_average_color img).2.2 ≤ 255) ∧
    (∀ c : RGBA, 0 < img.width * img.height →
      (∀ x < img.width, ∀ y < img.height, img.pix x y = c) →
      get_average_color img = (c.r, c.g, c.b)) ∧
    (0 < img.width * img.height →
      (∀ x < img.width, ∀ y < img.height,
        img.pix x y = whitePix ∨ img.pix x y = blackPix) →
      2 * countWhite img = img.width * img.height →
      get_average_color img = (127, 127, 127)) :=
  ⟨fun hn hv => avg_le img hv hn,
   fun c hn hpix => avg_uniform img c hn hpix,
   fun hn hpix hc => avg_halfhalf img hn hpix hc⟩

/-- Instances of claim C5: a uniform 1×1 image and a half-black /
half-white 1×2 image. -/
theorem claim5_average_color_inst :
    (0 < unitImage.width * unitImage.height ∧
      (∀ x < unitImage.width, ∀ y < unitImage.height,
        unitImage.pix x y = RGBA.mk 10 20 30 255) ∧
      get_average_color unitImage = (10, 20, 30)) ∧
    (0 < bwImage.width * bwImage.height ∧
      (∀ x < bwImage.width, ∀ y < bwImage.height,
        bwImage.pix x y = whitePix ∨ bwImage.pix x y = blackPix) ∧
      2 * countWhite bwImage = bwImage.width * bwImage.height ∧
      get_average_color bwImage = (127, 127, 127)) :=
  ⟨⟨by decide, by decide,
     (claim5_average_color unitImage).2.1 (RGBA.mk 10 20 30 255) (by decide) (by decide)⟩,
   ⟨by decide, by decide, by decide,
     (claim5_average_color bwImage).2.2 (by decide) (by decide) (by decide)⟩⟩

/-- Claim C6: compositing a fully transparent overlay returns a canvas
pixel-identical to the base; compositing a fully opaque overlay returns
a canvas pixel-identical to the overlay (resized to 585×559 first when
its dimensions differ, which is what `effOverlay` denotes). -/
theorem claim6_overlay_extremes (rs : ResizeFun) (base ov : Image) :
    ((∀ x < base.width, ∀ y < base.height, ((effOverlay rs ov).pix x y).a = 0) →
      Image.eqOn (apply_template_overlay rs base (some ov)).1 base) ∧
    ((∀ x < base.width, ∀ y < base.height,
        ((effOverlay rs ov).pix x y).a = 255 ∧ ((effOverlay rs ov).pix x y).valid) →
      ∀ x < base.width, ∀ y < base.height,
        ((apply_template_overlay rs base (some ov)).1).pix x y =
          (effOverlay rs ov).pix x y) :=
  ⟨apply_overlay_transparent rs base ov, apply_overlay_opaque rs base ov⟩

/-- Instances of claim C6 with a fully transparent and a fully opaque
585×559 overlay over a 2×2 base. -/
theorem claim6_overlay_extremes_inst :
    (∀ x < baseSmall.width, ∀ y < baseSmall.height,
      ((effOverlay rsNearest clearOverlay).pix x y).a = 0) ∧
    Image.eqOn (apply_template_overlay rsNearest baseSmall (some clearOverlay)).1
      baseSmall ∧
    (∀ x < baseSmall.width, ∀ y < baseSmall.height,
      ((effOverlay rsNearest opaqueOverlay).pix x y).a = 255 ∧
        ((effOverlay rsNearest opaqueOverlay).pix x y).valid) ∧
    ((apply_template_overlay rsNearest baseSmall (some opaqueOverlay)).1).pix 1 1 =
      (effOverlay rsNearest opaqueOverlay).pix 1 1 :=
  ⟨by decide,
   (claim6_overlay_extremes rsNearest baseSmall clearOverlay).1 (by decide),
   by decide,
   (claim6_overlay_extremes rsNearest baseSmall opaqueOverlay).2 (by decide) 1
     (by decide) 1 (by decide)⟩

/-- Claim C7: when the overlay step's load fails, `apply_template_overlay`
returns the base canvas unmodified and surfaces a warning, and the
pipeline still completes with a successful canvas — an overlay failure
never aborts the run. -/
theorem claim7_overlay_failure_graceful (rs : ResizeFun) (base : Image)
    (prompt : String) (mode : Mode) (ai : Image) (hp : prompt ≠ "") :
    apply_template_overlay rs base none = (base, true) ∧
      (runPipeline rs prompt mode (some ai) none).outcome =
        MainOutcome.success (composeBase rs mode ai) ∧
      (runPipeline rs prompt mode (some ai) none).overlayWarned = true := by
  refine ⟨rfl, ?_, ?_⟩ <;> simp [runPipeline, hp, apply_template_overlay]

/-- Instance of claim C7 with a failing overlay load. -/
theorem claim7_overlay_failure_graceful_inst :
    ("x" : String) ≠ "" ∧
      apply_template_overlay rsNearest baseSmall none = (baseSmall, true) ∧
      (runPipeline rsNearest "x" Mode.pattern (some unitImage) none).outcome =
        MainOutcome.success (composeBase rsNearest Mode.pattern unitImage) ∧
      (runPipeline rsNearest "x" Mode.pattern (some unitImage) none).overlayWarned =
        true :=
  ⟨by decide,
   claim7_overlay_failure_graceful rsNearest baseSmall "x" Mode.pattern unitImage
     (by decide)⟩

/-- Claim C8: `download_template` is idempotent and cache-first — with an
existing cache file it performs no fetch and leaves the file unchanged,
and two successive calls perform at most one fetch in total, the second
call being a no-op. -/
theorem claim8_template_cache_idempotent (f : CacheFile) (file0 : Option CacheFile)
    (fetch1 fetch2 : Option (List Nat)) :
    download_template (some f) fetch1 = (some f, 0) ∧
      (download_template file0 fetch1).2 +
        (download_template (download_template file0 fetch1).1 fetch2).2 ≤ 1 ∧
      download_template (download_template file0 fetch1).1 fetch2 =
        ((download_template file0 fetch1).1, 0) := by
  refine ⟨rfl, ?_, ?_⟩ <;> cases file0 <;> cases fetch1 <;> simp [download_template]

/-- Claim C9: when the generator call fails (prompt non-empty), the
pipeline halts with GenerationError, the overlay step is never reached,
and no canvas is produced. -/
theorem claim9_generation_error_halts (rs : ResizeFun) (prompt : String) (mode : Mode)
    (templateLoad : Option Image) (hp : prompt ≠ "") :
    (runPipeline rs prompt mode none templateLoad).outcome =
        MainOutcome.generationError ∧
      (runPipeline rs prompt mode none templateLoad).overlayAttempted = false ∧
      ∀ img : Image, (runPipeline rs prompt mode none templateLoad).outcome ≠
        MainOutcome.success img := by
  have h1 : runPipeline rs prompt mode none templateLoad =
      ⟨MainOutcome.generationError, true, false, false⟩ := by
    unfold runPipeline
    rw [if_neg hp]
  rw [h1]
  exact ⟨rfl, rfl, fun img h => MainOutcome.noConfusion h⟩

/-- Instance of claim C9 with a failing generator. -/
theorem claim9_generation_error_halts_inst :
    ("x" : String) ≠ "" ∧
      (runPipeline rsNearest "x" Mode.logo none none).outcome =
        MainOutcome.generationError ∧
      (runPipeline rsNearest "x" Mode.logo none none).overlayAttempted = false ∧
      ∀ img : Image, (runPipeline rsNearest "x" Mode.logo none none).outcome ≠
        MainOutcome.success img :=
  ⟨by decide, claim9_generation_error_halts rsNearest "x" Mode.logo none (by decide)⟩

/-- Claim C10: the fallback placeholder is an RGBA image of exactly
(585, 559) — the canvas dimensions — so the overlay resize branch is
never taken on it, and compositing it changes no canvas pixel wherever
the base is opaque. -/
theorem claim10_placeholder_dimensions (rs : ResizeFun) (base : Image) :
    placeholderImage.width = ROBLOX_WIDTH ∧ placeholderImage.height = ROBLOX_HEIGHT ∧
      effOverlay rs placeholderImage = placeholderImage ∧
      ∀ x < base.width, ∀ y < base.height, (base.pix x y).a = 255 →
        ((apply_template_overlay rs base (some placeholderImage)).1).pix x y =
          base.pix x y :=
  ⟨rfl, rfl, effOverlay_placeholder rs,
   fun x _ y _ _ => apply_overlay_placeholder rs base x y⟩

/-- Instance of claim C10 on an opaque 2×2 base. -/
theorem claim10_placeholder_dimensions_inst :
    (baseSmall.pix 0 0).a = 255 ∧
      ((apply_template_overlay rsNearest baseSmall (some placeholderImage)).1).pix 0 0 =
        baseSmall.pix 0 0 :=
  ⟨by decide,
   (claim10_placeholder_dimensions rsNearest baseSmall).2.2.2 0 (by decide) 0
     (by decide) (by decide)⟩
